import Mathlib

/-!
Verification development for `src/components/panningViews/panDismissibleView.js`
(PanDismissibleView component).

The component is embedded as a pure state machine.  JavaScript numbers that may
be `undefined` are modelled as `Option ℚ`; `Math.round` is modelled as
`fun q => Int.floor (q + 1/2)` (JS half-up rounding, halves toward +∞); JS
truthiness of a numeric value means "defined and nonzero", truthiness of a
direction value means "defined" (the direction constants are nonempty strings).
React `setState` is modelled as a synchronous field update, and the `Animated`
runtime is modelled by recording which animation kind is in flight and by
completion events carrying the `finished` flag that the runtime passes to the
start-callback.  Ghost counters (`panStartCount`, `panEndCount`, `dragCount`,
`dismissCount`) record how often the corresponding handlers / callbacks fire;
they are observation instrumentation and influence no branch.
-/

namespace PanDismissible

/-- `PanningProvider.Directions`: UP | DOWN | LEFT | RIGHT. -/
inductive Direction
  | up
  | down
  | left
  | right
deriving DecidableEq

/-- A JS number slot that may be `undefined`. -/
abbrev JNum := Option ℚ

/-- JS `Math.round`: half-up rounding, halves toward +∞ (`⌊q + 1/2⌋`,
    written with the executable `Rat.floor`). -/
def jsRound (q : ℚ) : ℤ := (q + 1/2).floor

/-- `Math.round` lifted to possibly-undefined values. -/
def jroundQ : JNum → JNum := Option.map fun q => ((jsRound q : ℤ) : ℚ)

/-- JS unary minus on a possibly-undefined value. -/
def jneg : JNum → JNum := Option.map fun q => -q

/-- JS `a <= b` where an undefined operand makes the comparison false
    (the `NaN` paths of the source never reach a true comparison). -/
def jsLe : JNum → JNum → Bool
  | some a, some b => decide (a ≤ b)
  | _, _ => false

/-- JS `a >= b`, false when an operand is undefined. -/
def jsGe : JNum → JNum → Bool
  | some a, some b => decide (b ≤ a)
  | _, _ => false

/-- JS truthiness of a numeric slot: defined and nonzero. -/
def truthyNum : Option ℚ → Bool
  | none => false
  | some q => decide (q ≠ 0)

/-- JS truthiness of a direction slot: the direction constants are nonempty
    strings, hence truthy iff defined. -/
def truthyDir (d : Option Direction) : Bool := d.isSome

/-- The pan context injected by `asPanViewConsumer` on every tick. -/
structure PanContext where
  isPanning : Bool
  dragX : Option ℚ
  dragY : Option ℚ
  swipeX : Option Direction
  swipeY : Option Direction
  dragDirX : Option Direction
  dragDirY : Option Direction
deriving DecidableEq

/-- The props of `PanDismissibleView` that the embedded logic reads. -/
structure Props where
  directions : List Direction
  styleLeft : Option ℚ
  styleTop : Option ℚ
  animationSpeed : ℚ
  animationBounciness : ℚ
  dismissAnimationDuration : Option ℚ
deriving DecidableEq

def DEFAULT_SPEED : ℚ := 20

def DEFAULT_BOUNCINESS : ℚ := 6

def DEFAULT_DISMISS_ANIMATION_DURATION : ℚ := 280

/-- `defaultProps` of the component. -/
def defaultProps : Props :=
  { directions := [Direction.up, Direction.down, Direction.left, Direction.right]
    styleLeft := none
    styleTop := none
    animationSpeed := DEFAULT_SPEED
    animationBounciness := DEFAULT_BOUNCINESS
    dismissAnimationDuration := none }

/-- Which animation channel an animation drives. -/
inductive Chan
  | x
  | y
deriving DecidableEq

/-- An animation pushed into the `animations` array: either an
    `Animated.spring` (settle) or an `Animated.timing` (dismiss). -/
inductive AnimSpec
  | spring (channel : Chan) (toValue : ℤ) (speed bounciness : ℚ)
  | timing (channel : Chan) (toValue : ℤ) (duration : ℚ)
deriving DecidableEq

/-- The channel an animation drives. -/
def chanOf : AnimSpec → Chan
  | AnimSpec.spring c _ _ _ => c
  | AnimSpec.timing c _ _ => c

/-- The target value of an animation. -/
def targetOf : AnimSpec → ℤ
  | AnimSpec.spring _ v _ _ => v
  | AnimSpec.timing _ v _ => v

/-- The duration of an `Animated.timing` animation (`none` for a spring). -/
def durOf : AnimSpec → Option ℚ
  | AnimSpec.spring _ _ _ _ => none
  | AnimSpec.timing _ _ d => some d

/-- Which animation (if any) is in flight on the channel pair. -/
inductive AnimKind
  | idle
  | settle
  | dismiss
deriving DecidableEq

/-- The mutable state of one `PanDismissibleView` instance: the React state
    (`animTranslateX/Y` seeds, `isAnimating`), the direct instance fields, the
    previous context (what React hands to `componentDidUpdate` as `prevProps`),
    the in-flight animation kind, and the ghost counters. -/
structure CompState where
  animTranslateX : JNum
  animTranslateY : JNum
  isAnimating : Bool
  height : JNum
  width : JNum
  thresholdX : JNum
  thresholdY : JNum
  originalLeft : JNum
  originalTop : JNum
  left : JNum
  top : JNum
  swipeX : Option Direction
  swipeY : Option Direction
  refAttached : Bool
  prevCtx : PanContext
  running : AnimKind
  lastAnims : List AnimSpec
  dismissCount : Nat
  panStartCount : Nat
  panEndCount : Nat
  dragCount : Nat
deriving DecidableEq

/-- The context before the first update tick of a mount (no pan in progress). -/
def ctx0 : PanContext :=
  { isPanning := false
    dragX := none
    dragY := none
    swipeX := none
    swipeY := none
    dragDirX := none
    dragDirY := none }

/-- The state right after `constructor` and mount: both animation channels at
    `new Animated.Value(0)`, `isAnimating: false`, every instance field still
    undefined, the view ref attached by the first render. -/
def initState (c : PanContext) : CompState :=
  { animTranslateX := some 0
    animTranslateY := some 0
    isAnimating := false
    height := none
    width := none
    thresholdX := none
    thresholdY := none
    originalLeft := none
    originalTop := none
    left := none
    top := none
    swipeX := none
    swipeY := none
    refAttached := true
    prevCtx := c
    running := AnimKind.idle
    lastAnims := []
    dismissCount := 0
    panStartCount := 0
    panEndCount := 0
    dragCount := 0 }

/-- `setNativeProps(left, top)`: a no-op when the view ref is not attached,
    otherwise records the directly mutated offsets. -/
def setNativeProps (l t : JNum) (s : CompState) : CompState :=
  if s.refAttached then { s with left := l, top := t } else s

/-- `initPositions`: snap the view to the original offsets and re-seed both
    animation channels with them. -/
def initPositions (s : CompState) : CompState :=
  let s1 := setNativeProps s.originalLeft s.originalTop s
  { s1 with animTranslateX := s.originalLeft, animTranslateY := s.originalTop }

/-- The geometry reported by a layout event. -/
structure LayoutEvent where
  width : ℚ
  height : ℚ
deriving DecidableEq

/-- `onLayout`: only when `this.height` is still undefined, record the
    geometry, derive the thresholds, capture the original style offsets
    (`_.get(style, 'left', 0)`) and call `initPositions`. -/
def onLayout (p : Props) (e : LayoutEvent) (s : CompState) : CompState :=
  if s.height.isSome then s
  else
    initPositions
      { s with
          height := some e.height
          thresholdY := some (e.height / 2)
          width := some e.width
          thresholdX := some (e.width / 2)
          originalLeft := some (p.styleLeft.getD 0)
          originalTop := some (p.styleTop.getD 0) }

/-- `onPanStart`: reset the captured swipe to `{}`. -/
def onPanStart (s : CompState) : CompState :=
  { s with swipeX := none, swipeY := none, panStartCount := s.panStartCount + 1 }

/-- `onDrag(deltas)`: a truthy (defined, nonzero) delta is rounded and applied,
    a falsy one resets the axis to the original offset. -/
def onDrag (dx dy : Option ℚ) (s : CompState) : CompState :=
  let l : JNum := if truthyNum dx then jroundQ dx else s.originalLeft
  let t : JNum := if truthyNum dy then jroundQ dy else s.originalTop
  setNativeProps l t { s with dragCount := s.dragCount + 1 }

/-- `onSwipe(swipeDirections)`: overwrite the captured swipe object. -/
def onSwipe (sx sy : Option Direction) (s : CompState) : CompState :=
  { s with swipeX := sx, swipeY := sy }

/-- `getDismissAnimationDirection`: resolve `isRight`/`isDown` from the
    context's swipe directions when any is present, otherwise from the
    context's drag directions; an unresolved axis stays `undefined`. -/
def getDismissAnimationDirection (c : PanContext) : Option Bool × Option Bool :=
  let hasHorizontalSwipe := c.swipeX.isSome
  let hasVerticalSwipe := c.swipeY.isSome
  if hasHorizontalSwipe || hasVerticalSwipe then
    ((if hasHorizontalSwipe then some (decide (c.swipeX = some Direction.right)) else none),
     (if hasVerticalSwipe then some (decide (c.swipeY = some Direction.down)) else none))
  else
    (c.dragDirX.map fun d => decide (d = Direction.right),
     c.dragDirY.map fun d => decide (d = Direction.down))

/-- The release decision taken by `onPanEnd`. -/
inductive Decision
  | dismiss (isRight isDown : Option Bool)
  | settle
deriving DecidableEq

/-- The branch structure of `onPanEnd` (lines 146-165): a captured swipe
    always dismisses; otherwise the rounded offsets are compared against the
    thresholds, filtered by the enabled `directions`, and a failed check
    settles back. -/
def onPanEndDecision (directions : List Direction) (swX swY : Option Direction)
    (left top thresholdX thresholdY : JNum) (c : PanContext) : Decision :=
  if truthyDir swX || truthyDir swY then
    let rd := getDismissAnimationDirection c
    Decision.dismiss rd.1 rd.2
  else
    let ex := jroundQ left
    let ey := jroundQ top
    if (directions.contains Direction.left && jsLe ex (jneg thresholdX)) ||
        (directions.contains Direction.right && jsGe ex thresholdX) ||
        (directions.contains Direction.up && jsLe ey (jneg thresholdY)) ||
        (directions.contains Direction.down && jsGe ey thresholdY) then
      let rd := getDismissAnimationDirection c
      Decision.dismiss rd.1 rd.2
    else
      Decision.settle

/-- The animations built by `animateDismiss` (lines 232-264): a resolved axis
    gets an `Animated.timing` to `Math.round` of the signed off-screen target
    `± (screen extent + view extent)` with the module-level default duration;
    an unresolved axis gets nothing.  The declared `dismissAnimationDuration`
    prop is passed in but never read, exactly as in the source. -/
def animateDismissAnims (isRight isDown : Option Bool) (width height : JNum)
    (screenWidth screenHeight : ℚ) (dismissAnimationDuration : Option ℚ) :
    List AnimSpec :=
  let toX : JNum :=
    match isRight, width with
    | some r, some w => some (if r then screenWidth + w else -(screenWidth + w))
    | _, _ => none
  let toY : JNum :=
    match isDown, height with
    | some d, some h => some (if d then screenHeight + h else -(screenHeight + h))
    | _, _ => none
  (match toX with
   | some v => [AnimSpec.timing Chan.x (jsRound v) DEFAULT_DISMISS_ANIMATION_DURATION]
   | none => []) ++
  (match toY with
   | some v => [AnimSpec.timing Chan.y (jsRound v) DEFAULT_DISMISS_ANIMATION_DURATION]
   | none => [])

/-- `animateDismiss` on the component state: build the animations, set
    `isAnimating`, and start the parallel dismiss animation. -/
def animateDismiss (isRight isDown : Option Bool) (screenW screenH : ℚ)
    (p : Props) (s : CompState) : CompState :=
  { s with
      isAnimating := true
      running := AnimKind.dismiss
      lastAnims :=
        animateDismissAnims isRight isDown s.width s.height screenW screenH
          p.dismissAnimationDuration }

/-- The animations built by `animateToInitialPosition`: springs toward
    `Math.round(-left)` / `Math.round(-top)` with the configured speed and
    bounciness. -/
def animateToInitialPositionAnims (left top : JNum) (speed bounciness : ℚ) :
    List AnimSpec :=
  (match jneg left with
   | some v => [AnimSpec.spring Chan.x (jsRound v) speed bounciness]
   | none => []) ++
  (match jneg top with
   | some v => [AnimSpec.spring Chan.y (jsRound v) speed bounciness]
   | none => [])

/-- `animateToInitialPosition` on the component state. -/
def animateToInitialPosition (p : Props) (s : CompState) : CompState :=
  { s with
      isAnimating := true
      running := AnimKind.settle
      lastAnims :=
        animateToInitialPositionAnims s.left s.top p.animationSpeed
          p.animationBounciness }

/-- `onPanEnd` (lines 146-165) on the component state. -/
def onPanEnd (screenW screenH : ℚ) (p : Props) (c : PanContext) (s : CompState) :
    CompState :=
  let s1 := { s with panEndCount := s.panEndCount + 1 }
  match onPanEndDecision p.directions s1.swipeX s1.swipeY s1.left s1.top
      s1.thresholdX s1.thresholdY c with
  | Decision.dismiss r d => animateDismiss r d screenW screenH p s1
  | Decision.settle => animateToInitialPosition p s1

/-- `onDismissAnimationFinished({finished})`: invoke `onDismiss` only when the
    animation ran to full completion. -/
def onDismissAnimationFinished (finished : Bool) (s : CompState) : CompState :=
  if finished then { s with dismissCount := s.dismissCount + 1 } else s

/-- `onInitAnimationFinished`: clear `isAnimating` (ignoring the `finished`
    flag) and re-seed the positions. -/
def onInitAnimationFinished (s : CompState) : CompState :=
  initPositions { s with isAnimating := false }

/-- `componentDidUpdate(prevProps)`: the pan-transition block (gated by
    `isAnimating` read at entry), then the drag block, then the swipe block;
    each later block sees the state left by the earlier ones. -/
def componentDidUpdate (screenW screenH : ℚ) (p : Props) (c : PanContext)
    (s : CompState) : CompState :=
  let prev := s.prevCtx
  let isAnim := s.isAnimating
  let s1 :=
    if c.isPanning ≠ prev.isPanning then
      if c.isPanning && !isAnim then onPanStart s
      else onPanEnd screenW screenH p c s
    else s
  let s2 :=
    if c.isPanning && (truthyNum c.dragX || truthyNum c.dragY) &&
        (decide (c.dragX ≠ prev.dragX) || decide (c.dragY ≠ prev.dragY)) then
      onDrag c.dragX c.dragY s1
    else s1
  let s3 :=
    if c.isPanning && (truthyDir c.swipeX || truthyDir c.swipeY) &&
        (decide (c.swipeX ≠ prev.swipeX) || decide (c.swipeY ≠ prev.swipeY)) then
      onSwipe c.swipeX c.swipeY s2
    else s2
  { s3 with prevCtx := c }

/-- The externally delivered events that drive one component instance. -/
inductive Event
  | update (c : PanContext)
  | layout (e : LayoutEvent)
  | dismissAnimDone (finished : Bool)
  | settleAnimDone (finished : Bool)
deriving DecidableEq

/-- One event step.  A completion event is only deliverable while the matching
    animation is the one in flight; it hands the component the runtime's
    `finished` flag and marks the channel pair idle again. -/
def step (screenW screenH : ℚ) (p : Props) (s : CompState) : Event → CompState
  | Event.update c => componentDidUpdate screenW screenH p c s
  | Event.layout e => onLayout p e s
  | Event.dismissAnimDone f =>
      if s.running = AnimKind.dismiss then
        { onDismissAnimationFinished f s with running := AnimKind.idle }
      else s
  | Event.settleAnimDone _ =>
      if s.running = AnimKind.settle then
        { onInitAnimationFinished s with running := AnimKind.idle }
      else s

/-- Run a list of events from a state. -/
def run (screenW screenH : ℚ) (p : Props) (s : CompState) (es : List Event) :
    CompState :=
  es.foldl (step screenW screenH p) s

/-- One entry of the rendered `transform` array. -/
inductive TransformEntry
  | translateX (v : JNum)
  | translateY (v : JNum)
deriving DecidableEq

/-- `render` (lines 281-300): the transform is driven by the animation
    channels while `isAnimating`, and is the empty (identity) array otherwise
    so the directly mutated offsets are authoritative. -/
def render (s : CompState) : List TransformEntry :=
  if s.isAnimating then
    [TransformEntry.translateX s.animTranslateX, TransformEntry.translateY s.animTranslateY]
  else []

section Theorems

attribute [local semireducible] Rat.add Rat.mul Rat.sub Rat.inv

/-- `jsRound` agrees with the mathematical floor of `q + 1/2`. -/
theorem jsRound_eq_intFloor (q : ℚ) : jsRound q = Int.floor (q + 1/2) := by
  unfold jsRound
  rw [Rat.floor_def', Rat.floor_def]

/-- Rounding an integer value is the identity. -/
theorem jsRound_intCast (n : ℤ) : jsRound ((n : ℚ)) = n := by
  rw [jsRound_eq_intFloor, Int.floor_int_add]
  have h12 : Int.floor ((1 : ℚ)/2) = 0 := by
    rw [Int.floor_eq_zero_iff]
    constructor <;> norm_num
  rw [h12, add_zero]

theorem setNativeProps_ghost (l t : JNum) (s : CompState) :
    (setNativeProps l t s).dismissCount = s.dismissCount ∧
    (setNativeProps l t s).panStartCount = s.panStartCount ∧
    (setNativeProps l t s).panEndCount = s.panEndCount ∧
    (setNativeProps l t s).dragCount = s.dragCount ∧
    (setNativeProps l t s).isAnimating = s.isAnimating := by
  unfold setNativeProps
  split <;> simp

theorem onPanEnd_ghost (sw sh : ℚ) (p : Props) (c : PanContext) (s : CompState) :
    (onPanEnd sw sh p c s).dismissCount = s.dismissCount ∧
    (onPanEnd sw sh p c s).panStartCount = s.panStartCount ∧
    (onPanEnd sw sh p c s).panEndCount = s.panEndCount + 1 ∧
    (onPanEnd sw sh p c s).dragCount = s.dragCount ∧
    (onPanEnd sw sh p c s).isAnimating = true := by
  unfold onPanEnd
  dsimp only
  split <;> simp [animateDismiss, animateToInitialPosition]

theorem componentDidUpdate_dismissCount (sw sh : ℚ) (p : Props) (c : PanContext)
    (s : CompState) :
    (componentDidUpdate sw sh p c s).dismissCount = s.dismissCount := by
  unfold componentDidUpdate onPanEnd onPanStart onDrag onSwipe animateDismiss
    animateToInitialPosition setNativeProps
  dsimp only
  repeat' split
  all_goals simp

/-- C4: the dismiss-animation completion handler invokes `onDismiss` exactly
    once when the completion reports `finished = true`, never when the dismiss
    animation was interrupted (`finished = false`), and no other event invokes
    `onDismiss`. -/
theorem C4_onDismiss_exactly_once (sw sh : ℚ) (p : Props) (s : CompState)
    (hrun : s.running = AnimKind.dismiss) :
    (step sw sh p s (Event.dismissAnimDone true)).dismissCount = s.dismissCount + 1 ∧
    (step sw sh p s (Event.dismissAnimDone false)).dismissCount = s.dismissCount ∧
    (∀ e : Event, e ≠ Event.dismissAnimDone true →
      (step sw sh p s e).dismissCount = s.dismissCount) := by
  refine ⟨?_, ?_, ?_⟩
  · simp [step, hrun, onDismissAnimationFinished]
  · simp [step, hrun, onDismissAnimationFinished]
  · intro e he
    cases e with
    | update c => simp [step, componentDidUpdate_dismissCount]
    | layout ev =>
        simp [step, onLayout]
        split
        · rfl
        · simp [initPositions, setNativeProps_ghost]
    | dismissAnimDone f =>
        cases f with
        | true => exact absurd rfl he
        | false => simp [step, hrun, onDismissAnimationFinished]
    | settleAnimDone f =>
        simp [step]
        split
        · simp [onInitAnimationFinished, initPositions, setNativeProps_ghost]
        · rfl

/-- C4 witness: a concrete dismissing state; a finished completion fires
    `onDismiss` once, an interrupted completion and a layout event fire it
    not at all. -/
theorem C4_witness :
    (step 400 800 defaultProps
        { initState ctx0 with running := AnimKind.dismiss }
        (Event.dismissAnimDone true)).dismissCount =
      (initState ctx0).dismissCount + 1 ∧
    (step 400 800 defaultProps
        { initState ctx0 with running := AnimKind.dismiss }
        (Event.dismissAnimDone false)).dismissCount = (initState ctx0).dismissCount ∧
    (step 400 800 defaultProps
        { initState ctx0 with running := AnimKind.dismiss }
        (Event.layout ⟨100, 100⟩)).dismissCount = (initState ctx0).dismissCount := by
  refine ⟨(C4_onDismiss_exactly_once 400 800 defaultProps _ rfl).1,
    (C4_onDismiss_exactly_once 400 800 defaultProps _ rfl).2.1,
    (C4_onDismiss_exactly_once 400 800 defaultProps _ rfl).2.2 _ (by decide)⟩

/-- C5: the animations built for a dismissal all use the module-level default
    duration constant 280, and the result does not depend on the declared
    `dismissAnimationDuration` prop at all. -/
theorem C5_dismissAnimationDuration_unused (isRight isDown : Option Bool)
    (w h : JNum) (sw sh : ℚ) (d d2 : Option ℚ) :
    animateDismissAnims isRight isDown w h sw sh d =
      animateDismissAnims isRight isDown w h sw sh d2 ∧
    (animateDismissAnims isRight isDown w h sw sh d).all
      (fun a => decide (durOf a = some DEFAULT_DISMISS_ANIMATION_DURATION)) = true := by
  constructor
  · rfl
  · unfold animateDismissAnims
    cases isRight <;> cases isDown <;> cases w <;> cases h <;> simp [durOf]

/-- C9: the rendered transform is the animation-channel pair exactly while
    `isAnimating`, and the empty identity transform otherwise, so exactly one
    positioning mechanism is visually active in any state. -/
theorem C9_render_transform (s : CompState) :
    (s.isAnimating = true →
      render s = [TransformEntry.translateX s.animTranslateX,
        TransformEntry.translateY s.animTranslateY]) ∧
    (s.isAnimating = false → render s = []) ∧
    (render s ≠ [] ↔ s.isAnimating = true) := by
  unfold render
  cases h : s.isAnimating <;> simp

/-- C9 witness: both render modes at concrete states. -/
theorem C9_witness :
    render { initState ctx0 with isAnimating := true } =
      [TransformEntry.translateX (some 0), TransformEntry.translateY (some 0)] ∧
    render (initState ctx0) = [] :=
  ⟨(C9_render_transform { initState ctx0 with isAnimating := true }).1 rfl,
    (C9_render_transform (initState ctx0)).2.1 rfl⟩

/-- C2: with no captured swipe, the release decision dismisses exactly when,
    in the fixed check order, LEFT is enabled and `round(left) ≤ -thresholdX`,
    or RIGHT is enabled and `round(left) ≥ thresholdX`, or UP is enabled and
    `round(top) ≤ -thresholdY`, or DOWN is enabled and
    `round(top) ≥ thresholdY`; otherwise it settles back to the origin. -/
theorem C2_threshold_release_decision (directions : List Direction) (c : PanContext)
    (l t tx ty : ℚ) :
    onPanEndDecision directions none none (some l) (some t) (some tx) (some ty) c =
      if (Direction.left ∈ directions ∧ ((jsRound l : ℤ) : ℚ) ≤ -tx) ∨
          (Direction.right ∈ directions ∧ tx ≤ ((jsRound l : ℤ) : ℚ)) ∨
          (Direction.up ∈ directions ∧ ((jsRound t : ℤ) : ℚ) ≤ -ty) ∨
          (Direction.down ∈ directions ∧ ty ≤ ((jsRound t : ℤ) : ℚ)) then
        Decision.dismiss (getDismissAnimationDirection c).1
          (getDismissAnimationDirection c).2
      else Decision.settle := by
  unfold onPanEndDecision
  rw [show (truthyDir none || truthyDir none) = false from rfl, if_neg (by simp)]
  have hiff :
      ((directions.contains Direction.left &&
          jsLe (jroundQ (some l)) (jneg (some tx)) ||
        (directions.contains Direction.right && jsGe (jroundQ (some l)) (some tx)) ||
        (directions.contains Direction.up && jsLe (jroundQ (some t)) (jneg (some ty))) ||
        (directions.contains Direction.down && jsGe (jroundQ (some t)) (some ty))) = true) ↔
      ((Direction.left ∈ directions ∧ ((jsRound l : ℤ) : ℚ) ≤ -tx) ∨
        (Direction.right ∈ directions ∧ tx ≤ ((jsRound l : ℤ) : ℚ)) ∨
        (Direction.up ∈ directions ∧ ((jsRound t : ℤ) : ℚ) ≤ -ty) ∨
        (Direction.down ∈ directions ∧ ty ≤ ((jsRound t : ℤ) : ℚ))) := by
    simp [jsLe, jsGe, jroundQ, jneg, List.elem_iff, or_assoc]
  by_cases hP :
      (Direction.left ∈ directions ∧ ((jsRound l : ℤ) : ℚ) ≤ -tx) ∨
        (Direction.right ∈ directions ∧ tx ≤ ((jsRound l : ℤ) : ℚ)) ∨
        (Direction.up ∈ directions ∧ ((jsRound t : ℤ) : ℚ) ≤ -ty) ∨
        (Direction.down ∈ directions ∧ ty ≤ ((jsRound t : ℤ) : ℚ))
  · rw [if_pos (hiff.mpr hP), if_pos hP]
  · rw [if_neg (fun hc => hP (hiff.mp hc)), if_neg hP]

theorem onLayout_skip (p : Props) (e : LayoutEvent) (s : CompState)
    (h : s.height.isSome = true) : onLayout p e s = s := by
  unfold onLayout
  rw [if_pos h]

/-- C7: only the first layout event (while `this.height` is still undefined)
    records the geometry, derives the half-extent thresholds, captures the
    original style offsets, and re-seeds both the direct position and the
    animation channels to that origin; any later layout event is ignored. -/
theorem C7_first_layout_only (p : Props) (e e2 : LayoutEvent) (s : CompState)
    (hfresh : s.height = none) (href : s.refAttached = true) :
    (onLayout p e s).height = some e.height ∧
    (onLayout p e s).width = some e.width ∧
    (onLayout p e s).thresholdY = some (e.height / 2) ∧
    (onLayout p e s).thresholdX = some (e.width / 2) ∧
    (onLayout p e s).originalLeft = some (p.styleLeft.getD 0) ∧
    (onLayout p e s).originalTop = some (p.styleTop.getD 0) ∧
    (onLayout p e s).left = some (p.styleLeft.getD 0) ∧
    (onLayout p e s).top = some (p.styleTop.getD 0) ∧
    (onLayout p e s).animTranslateX = some (p.styleLeft.getD 0) ∧
    (onLayout p e s).animTranslateY = some (p.styleTop.getD 0) ∧
    onLayout p e2 (onLayout p e s) = onLayout p e s ∧
    (∀ s2 : CompState, s2.height.isSome → onLayout p e2 s2 = s2) := by
  have hheight : (onLayout p e s).height = some e.height := by
    simp [onLayout, hfresh, initPositions, setNativeProps, href]
  have hid : onLayout p e2 (onLayout p e s) = onLayout p e s :=
    onLayout_skip p e2 _ (by rw [hheight]; rfl)
  refine ⟨hheight, ?_, ?_, ?_, ?_, ?_, ?_, ?_, ?_, ?_, hid,
      fun s2 h2 => onLayout_skip p e2 s2 h2⟩ <;>
    simp [onLayout, hfresh, initPositions, setNativeProps, href]

/-- C7 witness: the first layout of a fresh mount records the geometry and a
    second layout event changes nothing. -/
theorem C7_witness :
    (onLayout defaultProps ⟨100, 200⟩ (initState ctx0)).height = some 200 ∧
    (onLayout defaultProps ⟨100, 200⟩ (initState ctx0)).thresholdX = some 50 ∧
    onLayout defaultProps ⟨7, 8⟩ (onLayout defaultProps ⟨100, 200⟩ (initState ctx0)) =
      onLayout defaultProps ⟨100, 200⟩ (initState ctx0) := by
  obtain ⟨h1, _, _, h4, _, _, _, _, _, _, h11, _⟩ :=
    C7_first_layout_only defaultProps ⟨100, 200⟩ ⟨7, 8⟩ (initState ctx0) rfl rfl
  refine ⟨h1, ?_, h11⟩
  rw [h4]
  norm_num

/-- C6 counterexample: a reported drag delta of `0` on the x-axis does not set
    the displayed offset to `round(0) = 0`; because `0` is falsy, the axis is
    reset to the original offset (`10` here) instead. -/
theorem C6_counterexample :
    (onDrag (some 0) (some 5)
        { initState ctx0 with originalLeft := some 10, originalTop := some 0 }).left
      = some 10 ∧
    jroundQ (some 0) = some 0 ∧ (10 : ℚ) ≠ 0 := by decide

/-- C6 (amended): while a drag is applied, an axis with a present *nonzero*
    delta shows the rounded delta; an axis whose delta is missing *or zero*
    (zero being falsy) is reset to its original offset; the axes are handled
    independently and the animation channels are never touched. -/
theorem C6_drag_offsets (dx dy : Option ℚ) (s : CompState)
    (href : s.refAttached = true) :
    ((∀ q : ℚ, dx = some q → q ≠ 0 →
        (onDrag dx dy s).left = some ((jsRound q : ℤ) : ℚ)) ∧
      ((dx = none ∨ dx = some 0) → (onDrag dx dy s).left = s.originalLeft)) ∧
    ((∀ q : ℚ, dy = some q → q ≠ 0 →
        (onDrag dx dy s).top = some ((jsRound q : ℤ) : ℚ)) ∧
      ((dy = none ∨ dy = some 0) → (onDrag dx dy s).top = s.originalTop)) ∧
    (onDrag dx dy s).animTranslateX = s.animTranslateX ∧
    (onDrag dx dy s).animTranslateY = s.animTranslateY ∧
    (onDrag dx dy s).isAnimating = s.isAnimating := by
  refine ⟨⟨?_, ?_⟩, ⟨?_, ?_⟩, ?_, ?_, ?_⟩
  · intro q hq hq0
    subst hq
    simp [onDrag, setNativeProps, href, truthyNum, hq0, jroundQ]
  · rintro (hq | hq) <;> subst hq <;>
      simp [onDrag, setNativeProps, href, truthyNum]
  · intro q hq hq0
    subst hq
    simp [onDrag, setNativeProps, href, truthyNum, hq0, jroundQ]
  · rintro (hq | hq) <;> subst hq <;>
      simp [onDrag, setNativeProps, href, truthyNum]
  · simp [onDrag, setNativeProps, href]
  · simp [onDrag, setNativeProps, href]
  · simp [onDrag, setNativeProps, href]

/-- C6 witness: a fractional delta `5/2` on x is rounded half-up to `3`, while
    the y-axis with no delta is reset to its original offset. -/
theorem C6_witness :
    (onDrag (some (5/2)) none
        { initState ctx0 with originalLeft := some 1, originalTop := some 2 }).left
      = some 3 ∧
    (onDrag (some (5/2)) none
        { initState ctx0 with originalLeft := some 1, originalTop := some 2 }).top
      = some 2 := by
  obtain ⟨⟨hx, _⟩, ⟨_, hy⟩, _⟩ :=
    C6_drag_offsets (some (5/2)) none
      { initState ctx0 with originalLeft := some 1, originalTop := some 2 } rfl
  constructor
  · rw [hx (5/2) rfl (by norm_num)]
    have h3 : ((jsRound (5/2 : ℚ) : ℤ) : ℚ) = 3 := by decide
    rw [h3]
  · exact hy (Or.inl rfl)

/-- C1 counterexample: a swipe `{x: LEFT}` is captured while panning, but at
    release the context's `swipeDirections` report `{x: RIGHT}`; the component
    dismisses using the context's direction (target `+500`, rightward), not
    the captured swipe's direction (which would be leftward, negative). -/
theorem C1_counterexample :
    (run 400 800 defaultProps (initState ctx0)
        [Event.layout ⟨100, 100⟩,
          Event.update { ctx0 with isPanning := true },
          Event.update { ctx0 with isPanning := true, swipeX := some Direction.left },
          Event.update { ctx0 with swipeX := some Direction.right }]).swipeX
      = some Direction.left ∧
    (run 400 800 defaultProps (initState ctx0)
        [Event.layout ⟨100, 100⟩,
          Event.update { ctx0 with isPanning := true },
          Event.update { ctx0 with isPanning := true, swipeX := some Direction.left },
          Event.update { ctx0 with swipeX := some Direction.right }]).lastAnims
      = [AnimSpec.timing Chan.x 500 DEFAULT_DISMISS_ANIMATION_DURATION] ∧
    (run 400 800 defaultProps (initState ctx0)
        [Event.layout ⟨100, 100⟩,
          Event.update { ctx0 with isPanning := true },
          Event.update { ctx0 with isPanning := true, swipeX := some Direction.left },
          Event.update { ctx0 with swipeX := some Direction.right }]).running
      = AnimKind.dismiss ∧
    onPanEndDecision defaultProps.directions (some Direction.left) none (some 0)
        (some 0) (some 50) (some 50) { ctx0 with swipeX := some Direction.right }
      = Decision.dismiss (some true) none ∧
    Decision.dismiss (some true) none ≠
      Decision.dismiss
        (Option.map (fun d => decide (d = Direction.right)) (some Direction.left))
        none := by
  decide

/-- C1 (amended): with a captured swipe on either axis, the release decision
    is always a dismissal — independently of the offsets, thresholds and the
    `directions` prop — whose per-axis direction is resolved from the
    *context's* `swipeDirections` (falling back to its `dragDirections`) at
    release; when the context still reports the captured swipe at release,
    that per-axis direction is exactly the captured swipe's direction. -/
theorem C1_swipe_always_dismisses (directions : List Direction)
    (swX swY : Option Direction) (left top tx ty : JNum) (c : PanContext)
    (hcap : truthyDir swX = true ∨ truthyDir swY = true) :
    onPanEndDecision directions swX swY left top tx ty c =
      Decision.dismiss (getDismissAnimationDirection c).1
        (getDismissAnimationDirection c).2 ∧
    (c.swipeX = swX → c.swipeY = swY →
      onPanEndDecision directions swX swY left top tx ty c =
        Decision.dismiss (swX.map fun d => decide (d = Direction.right))
          (swY.map fun d => decide (d = Direction.down))) := by
  have hb : (truthyDir swX || truthyDir swY) = true := by
    rcases hcap with h | h <;> simp [h]
  have hmain : onPanEndDecision directions swX swY left top tx ty c =
      Decision.dismiss (getDismissAnimationDirection c).1
        (getDismissAnimationDirection c).2 := by
    unfold onPanEndDecision
    rw [if_pos hb]
  refine ⟨hmain, fun hx hy => ?_⟩
  rw [hmain]
  unfold getDismissAnimationDirection
  rw [hx, hy]
  rcases swX with _ | dX <;> rcases swY with _ | dY <;> simp_all [truthyDir]

/-- C1 witness: a captured left swipe with empty `directions` and offsets far
    below the thresholds still dismisses, leftward. -/
theorem C1_witness :
    onPanEndDecision [] (some Direction.left) none (some 0) (some 0) (some 50)
        (some 50) { ctx0 with swipeX := some Direction.left }
      = Decision.dismiss (some false) none := by
  have h := (C1_swipe_always_dismisses [] (some Direction.left) none (some 0)
    (some 0) (some 50) (some 50) { ctx0 with swipeX := some Direction.left }
    (Or.inl rfl)).2 rfl rfl
  simpa using h

/-- C3 counterexample: a view of width `2/5` on a 400-wide screen dismissing
    rightward gets the rounded target `round(400.4) = 400`, which neither
    equals the screen extent plus the view extent (`400.4`) nor strictly
    exceeds the screen bound (`400`). -/
theorem C3_counterexample :
    animateDismissAnims (some true) none (some (2/5)) none 400 300 none
      = [AnimSpec.timing Chan.x 400 DEFAULT_DISMISS_ANIMATION_DURATION] ∧
    ((400 : ℚ) ≠ 400 + 2/5) ∧ ¬ ((400 : ℚ) < 400) := by
  decide

/-- C3 (amended): an axis is animated by the dismissal exactly when its
    direction is resolved, to the single target
    `round(± (screen extent + view extent))` (positive for right/down,
    negative for left/up) with the default duration; when the screen and view
    extents are integers the rounding is exact, so the target's absolute value
    equals screen extent + view extent and strictly exceeds the screen bound
    by the view's extent. -/
theorem C3_dismiss_targets (isRight isDown : Option Bool) (w h sw sh : ℚ)
    (dp : Option ℚ) :
    ((animateDismissAnims isRight isDown (some w) (some h) sw sh dp).filter
        (fun a => decide (chanOf a = Chan.x))) =
      (match isRight with
        | some r =>
            [AnimSpec.timing Chan.x (jsRound (if r then sw + w else -(sw + w)))
              DEFAULT_DISMISS_ANIMATION_DURATION]
        | none => []) ∧
    ((animateDismissAnims isRight isDown (some w) (some h) sw sh dp).filter
        (fun a => decide (chanOf a = Chan.y))) =
      (match isDown with
        | some d =>
            [AnimSpec.timing Chan.y (jsRound (if d then sh + h else -(sh + h)))
              DEFAULT_DISMISS_ANIMATION_DURATION]
        | none => []) ∧
    (∀ m n : ℤ, w = (m : ℚ) → sw = (n : ℚ) →
        jsRound (sw + w) = n + m ∧ jsRound (-(sw + w)) = -(n + m)) ∧
    (∀ m n : ℤ, h = (m : ℚ) → sh = (n : ℚ) →
        jsRound (sh + h) = n + m ∧ jsRound (-(sh + h)) = -(n + m)) := by
  refine ⟨?_, ?_, ?_, ?_⟩
  · cases isRight <;> cases isDown <;> simp [animateDismissAnims, chanOf]
  · cases isRight <;> cases isDown <;> simp [animateDismissAnims, chanOf]
  · intro m n hm hn
    subst hm; subst hn
    constructor
    · rw [show ((n : ℚ) + (m : ℚ)) = ((n + m : ℤ) : ℚ) by push_cast; ring]
      exact jsRound_intCast (n + m)
    · rw [show (-((n : ℚ) + (m : ℚ))) = ((-(n + m) : ℤ) : ℚ) by push_cast; ring]
      exact jsRound_intCast (-(n + m))
  · intro m n hm hn
    subst hm; subst hn
    constructor
    · rw [show ((n : ℚ) + (m : ℚ)) = ((n + m : ℤ) : ℚ) by push_cast; ring]
      exact jsRound_intCast (n + m)
    · rw [show (-((n : ℚ) + (m : ℚ))) = ((-(n + m) : ℤ) : ℚ) by push_cast; ring]
      exact jsRound_intCast (-(n + m))

/-- C3 witness: the spec's example instance — view width 100, screen width
    400, rightward dismissal — animates x to exactly 500 = 400 + 100, and no
    y-animation exists since the y-direction is unresolved. -/
theorem C3_witness :
    ((animateDismissAnims (some true) none (some 100) (some 50) 400 300 none).filter
        (fun a => decide (chanOf a = Chan.x))) =
      [AnimSpec.timing Chan.x 500 DEFAULT_DISMISS_ANIMATION_DURATION] ∧
    ((animateDismissAnims (some true) none (some 100) (some 50) 400 300 none).filter
        (fun a => decide (chanOf a = Chan.y))) = [] ∧
    (500 : ℤ) = 400 + 100 := by
  obtain ⟨hx, hy, hint, _⟩ := C3_dismiss_targets (some true) none 100 50 400 300 none
  have h500 : jsRound ((400 : ℚ) + 100) = 500 := by
    have h := (hint 100 400 (by norm_num) (by norm_num)).1
    simpa using h
  refine ⟨?_, ?_, by norm_num⟩
  · rw [hx]
    simp [h500]
  · rw [hy]

theorem routedPanEnd (sw sh : ℚ) (p : Props) (c : PanContext) (s : CompState)
    (hA : s.isAnimating = true) (hprev : s.prevCtx.isPanning = false)
    (hpan : c.isPanning = true) :
    (step sw sh p s (Event.update c)).panStartCount = s.panStartCount ∧
    (step sw sh p s (Event.update c)).panEndCount = s.panEndCount + 1 ∧
    ((truthyNum c.dragX || truthyNum c.dragY) = true →
      (c.dragX ≠ s.prevCtx.dragX ∨ c.dragY ≠ s.prevCtx.dragY) →
      (step sw sh p s (Event.update c)).dragCount = s.dragCount + 1) := by
  obtain ⟨hg1, hg2, hg3, hg4, hg5⟩ := onPanEnd_ghost sw sh p c s
  simp only [step, componentDidUpdate]
  rw [hpan, hprev, hA]
  simp only [ne_eq, Bool.not_true, Bool.true_and, Bool.and_false, Bool.false_eq_true,
    if_false, if_true, not_false_eq_true, Bool.true_eq_false]
  refine ⟨?_, ?_, ?_⟩
  · repeat' split
    all_goals try simp_all [onDrag, onSwipe, setNativeProps]
    all_goals repeat' split
    all_goals simp_all
  · repeat' split
    all_goals try simp_all [onDrag, onSwipe, setNativeProps]
    all_goals repeat' split
    all_goals simp_all
  · intro htr hne
    have hcond : ((truthyNum c.dragX || truthyNum c.dragY) &&
        (decide (c.dragX ≠ s.prevCtx.dragX) || decide (c.dragY ≠ s.prevCtx.dragY))) = true := by
      rcases hne with h | h <;> simp [htr, h]
    rw [hcond]
    simp only [if_true]
    repeat' split
    all_goals try simp_all [onDrag, onSwipe, setNativeProps]
    all_goals repeat' split
    all_goals simp_all

/-- C8 counterexample: a dismiss animation is in flight (`isAnimating`), a new
    pan starts and its first tick carries a changed drag delta; `onPanStart`
    is indeed not invoked, but the drag handler still runs and directly
    mutates the offset (left goes from 60 to 5) while the animation is
    running — the claimed mutual exclusion does not hold. -/
theorem C8_counterexample :
    (run 400 800 defaultProps (initState ctx0)
        [Event.layout ⟨100, 100⟩,
          Event.update { ctx0 with isPanning := true },
          Event.update { ctx0 with isPanning := true, dragX := some 60 },
          Event.update { ctx0 with dragX := some 60, dragDirX := some Direction.right }]).isAnimating
      = true ∧
    (run 400 800 defaultProps (initState ctx0)
        [Event.layout ⟨100, 100⟩,
          Event.update { ctx0 with isPanning := true },
          Event.update { ctx0 with isPanning := true, dragX := some 60 },
          Event.update { ctx0 with dragX := some 60, dragDirX := some Direction.right },
          Event.update { ctx0 with isPanning := true, dragX := some 5 }]).panStartCount
      = (run 400 800 defaultProps (initState ctx0)
        [Event.layout ⟨100, 100⟩,
          Event.update { ctx0 with isPanning := true },
          Event.update { ctx0 with isPanning := true, dragX := some 60 },
          Event.update { ctx0 with dragX := some 60, dragDirX := some Direction.right }]).panStartCount ∧
    (run 400 800 defaultProps (initState ctx0)
        [Event.layout ⟨100, 100⟩,
          Event.update { ctx0 with isPanning := true },
          Event.update { ctx0 with isPanning := true, dragX := some 60 },
          Event.update { ctx0 with dragX := some 60, dragDirX := some Direction.right },
          Event.update { ctx0 with isPanning := true, dragX := some 5 }]).dragCount
      = (run 400 800 defaultProps (initState ctx0)
        [Event.layout ⟨100, 100⟩,
          Event.update { ctx0 with isPanning := true },
          Event.update { ctx0 with isPanning := true, dragX := some 60 },
          Event.update { ctx0 with dragX := some 60, dragDirX := some Direction.right }]).dragCount + 1 ∧
    (run 400 800 defaultProps (initState ctx0)
        [Event.layout ⟨100, 100⟩,
          Event.update { ctx0 with isPanning := true },
          Event.update { ctx0 with isPanning := true, dragX := some 60 },
          Event.update { ctx0 with dragX := some 60, dragDirX := some Direction.right },
          Event.update { ctx0 with isPanning := true, dragX := some 5 }]).left
      = some 5 := by
  decide

/-- C8 (amended): a pan-start arriving while `isAnimating` does not invoke
    `onPanStart`; instead the transition is routed to the pan-end handler
    (which may start another animation); drag deltas delivered in the same
    tick still invoke the direct-mutation drag handler, so direct mutation is
    *not* excluded while an animation is in flight. -/
theorem C8_pan_start_while_animating (sw sh : ℚ) (p : Props) (c : PanContext)
    (s : CompState) (hA : s.isAnimating = true)
    (hprev : s.prevCtx.isPanning = false) (hpan : c.isPanning = true) :
    (step sw sh p s (Event.update c)).panStartCount = s.panStartCount ∧
    (step sw sh p s (Event.update c)).panEndCount = s.panEndCount + 1 ∧
    ((truthyNum c.dragX || truthyNum c.dragY) = true →
      (c.dragX ≠ s.prevCtx.dragX ∨ c.dragY ≠ s.prevCtx.dragY) →
      (step sw sh p s (Event.update c)).dragCount = s.dragCount + 1) :=
  routedPanEnd sw sh p c s hA hprev hpan

/-- C8 witness: the amended routing at a concrete animating state. -/
theorem C8_witness :
    (step 400 800 defaultProps
        { initState ctx0 with isAnimating := true, running := AnimKind.dismiss }
        (Event.update { ctx0 with isPanning := true, dragX := some 5 })).panStartCount
      = (initState ctx0).panStartCount ∧
    (step 400 800 defaultProps
        { initState ctx0 with isAnimating := true, running := AnimKind.dismiss }
        (Event.update { ctx0 with isPanning := true, dragX := some 5 })).panEndCount
      = (initState ctx0).panEndCount + 1 ∧
    (step 400 800 defaultProps
        { initState ctx0 with isAnimating := true, running := AnimKind.dismiss }
        (Event.update { ctx0 with isPanning := true, dragX := some 5 })).dragCount
      = (initState ctx0).dragCount + 1 := by
  obtain ⟨h1, h2, h3⟩ := C8_pan_start_while_animating 400 800 defaultProps
    { ctx0 with isPanning := true, dragX := some 5 }
    { initState ctx0 with isAnimating := true, running := AnimKind.dismiss }
    rfl rfl rfl
  exact ⟨h1, h2, h3 (by decide) (Or.inl (by decide))⟩

/-- C10 counterexample: a full trace in which a dismissal completes
    (`onDismiss` fired), yet later a routed pan-end starts a settle animation
    whose completion resets `isAnimating` to false, after which a new
    pan-start does invoke `onPanStart` — so `isAnimating` does not remain
    true forever and drag-tracking is re-entered. -/
theorem C10_counterexample :
    (run 400 800 defaultProps (initState ctx0)
        [Event.layout ⟨100, 100⟩,
          Event.update { ctx0 with isPanning := true },
          Event.update { ctx0 with isPanning := true, dragX := some 60 },
          Event.update { ctx0 with dragX := some 60, dragDirX := some Direction.right },
          Event.dismissAnimDone true,
          Event.update { ctx0 with isPanning := true, dragDirX := some Direction.right },
          Event.update { ctx0 with isPanning := true, dragX := some 10 },
          Event.dismissAnimDone true,
          Event.update { ctx0 with dragX := some 10 },
          Event.settleAnimDone true]).dismissCount = 2 ∧
    (run 400 800 defaultProps (initState ctx0)
        [Event.layout ⟨100, 100⟩,
          Event.update { ctx0 with isPanning := true },
          Event.update { ctx0 with isPanning := true, dragX := some 60 },
          Event.update { ctx0 with dragX := some 60, dragDirX := some Direction.right },
          Event.dismissAnimDone true,
          Event.update { ctx0 with isPanning := true, dragDirX := some Direction.right },
          Event.update { ctx0 with isPanning := true, dragX := some 10 },
          Event.dismissAnimDone true,
          Event.update { ctx0 with dragX := some 10 },
          Event.settleAnimDone true]).isAnimating = false ∧
    (step 400 800 defaultProps
        (run 400 800 defaultProps (initState ctx0)
          [Event.layout ⟨100, 100⟩,
            Event.update { ctx0 with isPanning := true },
            Event.update { ctx0 with isPanning := true, dragX := some 60 },
            Event.update { ctx0 with dragX := some 60, dragDirX := some Direction.right },
            Event.dismissAnimDone true,
            Event.update { ctx0 with isPanning := true, dragDirX := some Direction.right },
            Event.update { ctx0 with isPanning := true, dragX := some 10 },
            Event.dismissAnimDone true,
            Event.update { ctx0 with dragX := some 10 },
            Event.settleAnimDone true])
        (Event.update { ctx0 with isPanning := true })).panStartCount
      = (run 400 800 defaultProps (initState ctx0)
          [Event.layout ⟨100, 100⟩,
            Event.update { ctx0 with isPanning := true },
            Event.update { ctx0 with isPanning := true, dragX := some 60 },
            Event.update { ctx0 with dragX := some 60, dragDirX := some Direction.right },
            Event.dismissAnimDone true,
            Event.update { ctx0 with isPanning := true, dragDirX := some Direction.right },
            Event.update { ctx0 with isPanning := true, dragX := some 10 },
            Event.dismissAnimDone true,
            Event.update { ctx0 with dragX := some 10 },
            Event.settleAnimDone true]).panStartCount + 1 := by
  decide

/-- C10 (amended): the dismiss completion handler indeed never clears
    `isAnimating` — only the settle completion handler does — and while
    `isAnimating` holds, a pan-start is routed to the pan-end handler instead
    of `onPanStart`; but that routed pan-end can itself start a settle
    animation, so `isAnimating` does not remain true forever after a
    completed dismissal. -/
theorem C10_dismiss_keeps_isAnimating (sw sh : ℚ) (p : Props) (s : CompState)
    (f : Bool) (hA : s.isAnimating = true)
    (hprev : s.prevCtx.isPanning = false) :
    (step sw sh p s (Event.dismissAnimDone f)).isAnimating = true ∧
    (s.running = AnimKind.settle →
      (step sw sh p s (Event.settleAnimDone f)).isAnimating = false) ∧
    (∀ c : PanContext, c.isPanning = true →
      (step sw sh p s (Event.update c)).panStartCount = s.panStartCount ∧
      (step sw sh p s (Event.update c)).panEndCount = s.panEndCount + 1) := by
  refine ⟨?_, ?_, ?_⟩
  · simp only [step]
    split
    · unfold onDismissAnimationFinished
      split <;> simp [hA]
    · exact hA
  · intro hrun
    simp only [step]
    rw [if_pos hrun]
    simp [onInitAnimationFinished, initPositions, setNativeProps]
    split <;> simp
  · intro c hpan
    obtain ⟨h1, h2, _⟩ := routedPanEnd sw sh p c s hA hprev hpan
    exact ⟨h1, h2⟩

/-- C10 witness: the amended behavior at a concrete animating state. -/
theorem C10_witness :
    (step 400 800 defaultProps
        { initState ctx0 with isAnimating := true, running := AnimKind.dismiss }
        (Event.dismissAnimDone true)).isAnimating = true ∧
    (step 400 800 defaultProps
        { initState ctx0 with isAnimating := true, running := AnimKind.settle }
        (Event.settleAnimDone true)).isAnimating = false ∧
    (step 400 800 defaultProps
        { initState ctx0 with isAnimating := true, running := AnimKind.dismiss }
        (Event.update { ctx0 with isPanning := true })).panStartCount
      = (initState ctx0).panStartCount := by
  refine ⟨?_, ?_, ?_⟩
  · exact (C10_dismiss_keeps_isAnimating 400 800 defaultProps
      { initState ctx0 with isAnimating := true, running := AnimKind.dismiss }
      true rfl rfl).1
  · exact (C10_dismiss_keeps_isAnimating 400 800 defaultProps
      { initState ctx0 with isAnimating := true, running := AnimKind.settle }
      true rfl rfl).2.1 rfl
  · exact ((C10_dismiss_keeps_isAnimating 400 800 defaultProps
      { initState ctx0 with isAnimating := true, running := AnimKind.dismiss }
      true rfl rfl).2.2 { ctx0 with isPanning := true } rfl).1

end Theorems

end PanDismissible
